import Mathlib

/-!
Verification of the process lifecycle supervisor of create-python-server
(create_mcp_server/server/manager.py and create_mcp_server/utils/process.py).

The supervisor is I/O-driven, so the embedding makes the environment explicit:
every observation the Python code makes of the outside world (an HTTP probe
outcome, a spawn result, a poll-loop iteration, the behaviour of the OS
process during termination) is a field of a world record, and the methods
become pure functions from a manager state and a world to a result and a new
state.  Python exceptions are Except values; a try/except block is a match on
the body result.
-/

namespace McpSuper

/-- The fields of ServerConfig (server/config.py) that the supervisor reads:
name, host, port, log level and the reload flag. -/
structure ServerConfig where
  name : String
  host : String
  port : Nat
  logLevel : String
  reload : Bool
  deriving DecidableEq, Repr

/-- STARTUP_TIMEOUT constant (manager.py line 43), in seconds. -/
def STARTUP_TIMEOUT : Nat := 30

/-- SHUTDOWN_TIMEOUT constant (manager.py line 44), in seconds. -/
def SHUTDOWN_TIMEOUT : Nat := 5

/-- The interval of the startup poll loop, asyncio.sleep(0.5) at
manager.py line 331, in seconds. -/
def POLL_INTERVAL : Rat := 1 / 2

/-- Python exceptions that the embedded process primitives can raise. -/
inductive Exc where
  | processLookup
  | other (msg : String)
  deriving DecidableEq, Repr

/-- The str() rendering of an exception, as interpolated into messages. -/
def excMsg : Exc → String
  | .processLookup => "ProcessLookupError"
  | .other m => m

/-- The typed server errors of manager.py: ServerStartError and
ServerStopError, each carrying its message. -/
inductive SErr where
  | startErr (msg : String)
  | stopErr (msg : String)
  deriving DecidableEq, Repr

/-- The mutable state of a ServerManager instance: the configuration, the
tracked process handle (self.process, by pid), the tracked child pids
(self._child_processes) and the two monitor task handles. -/
structure ManagerState where
  config : ServerConfig
  process : Option Nat
  children : List Nat
  healthTask : Bool
  statusTask : Bool
  deriving DecidableEq, Repr

/-- Outcome of an HTTP GET issued by a probe or health check: either some
response arrived, with its status code, or the request raised. -/
inductive HttpResult where
  | response (status : Nat)
  | connError (msg : String)
  deriving DecidableEq, Repr

/-- Embeds _is_port_available (manager.py 280-297): any successful response
means the port is in use (returns false); any exception means it is
available (returns true). -/
def is_port_available (r : HttpResult) : Bool :=
  match r with
  | .response _ => false
  | .connError _ => true

/-- The URL _is_port_available requests (manager.py line 293): always
localhost, whatever host the configuration carries. -/
def probeUrl (port : Nat) : String :=
  "http://localhost:" ++ toString port ++ "/health"

/-- The probe request that start() issues for a given manager state. -/
def probeRequest (s : ManagerState) : String :=
  probeUrl s.config.port

/-- Modelled from the spec: section 4.1 writes is_port_available(host, port)
and says the probe requests host:port, so the URL the spec describes is
built from the configured host. -/
def specProbeUrl (host : String) (port : Nat) : String :=
  "http://" ++ host ++ ":" ++ toString port ++ "/health"

/-- The probe as a state transformer: the method reads and writes no
supervisor state. -/
def is_port_availableM (s : ManagerState) (r : HttpResult) : Bool × ManagerState :=
  (is_port_available r, s)

/-- The health URL _wait_for_startup polls (manager.py line 307), built from
the configured host and port. -/
def startupHealthUrl (c : ServerConfig) : String :=
  "http://" ++ c.host ++ ":" ++ toString c.port ++ "/health"

/-- One iteration of the startup poll loop, as observed from the environment:
the wall-clock seconds elapsed at the loop test, the outcome of
self.process.poll() and communicate() (some pair of stdout and stderr when
the process has exited), and the health GET outcome. -/
structure PollObs where
  elapsed : Rat
  procExited : Option (String × String)
  health : HttpResult
  deriving DecidableEq, Repr

/-- The ServerStartError message raised when the process dies during startup
(manager.py 315-318). -/
def diedMsg (stdout stderr : String) : String :=
  "Server process terminated unexpectedly:\nstdout: " ++ stdout ++ "\nstderr: " ++ stderr

/-- The last_error recorded for a non-200 response (manager.py line 327). -/
def statusFailMsg (status : Nat) : String :=
  "Health check failed with status " ++ toString status

/-- Python interpolation of an optional string: None prints as None. -/
def optionStr : Option String → String
  | none => "None"
  | some s => s

/-- The ServerStartError message raised when the startup deadline passes
(manager.py 333-335). -/
def timeoutMsg (last : Option String) : String :=
  "Server failed to start within " ++ toString STARTUP_TIMEOUT ++ " seconds: " ++ optionStr last

/-- Embeds the _wait_for_startup loop (manager.py 299-335) over a finite
trace of iterations; an exhausted trace stands for the deadline having
passed with no further observations. -/
def wait_for_startup : List PollObs → Option String → Except String Unit
  | [], last => .error (timeoutMsg last)
  | o :: rest, last =>
    if o.elapsed < (STARTUP_TIMEOUT : Rat) then
      match o.procExited with
      | some (out, err) => .error (diedMsg out err)
      | none =>
        match o.health with
        | .response st =>
          if st = 200 then .ok ()
          else wait_for_startup rest (some (statusFailMsg st))
        | .connError m => wait_for_startup rest (some m)
    else
      .error (timeoutMsg last)

/-- Whether a health GET outcome counts as healthy (exactly HTTP 200). -/
def healthOk : HttpResult → Bool
  | .response st => st == 200
  | .connError _ => false

/-- The last_error a failing health outcome leaves behind. -/
def obsFailMsg : HttpResult → String
  | .response st => statusFailMsg st
  | .connError m => m

/-- Outcome of process.wait(timeout) inside kill_process. -/
inductive WaitOutcome where
  | done
  | timedOut
  | raised (e : Exc)
  deriving DecidableEq, Repr

/-- The behaviour of the OS process underneath one kill_process call:
whether poll() reports it alive, and what each primitive does. -/
structure KillWorld where
  alive : Bool
  terminateExc : Option Exc
  wait1 : WaitOutcome
  killExc : Option Exc
  wait2Exc : Option Exc
  deriving DecidableEq, Repr

/-- What a kill_process call ended up doing. -/
inductive KillLog where
  | notRunning
  | graceful
  | forced
  | processGone
  | loggedError (msg : String)
  deriving DecidableEq, Repr

/-- The try-block of kill_process (utils/process.py 294-305): terminate, wait
with timeout, on TimeoutExpired kill and wait again; each primitive may
raise. -/
def killBody (w : KillWorld) : Except Exc KillLog :=
  match w.terminateExc with
  | some e => .error e
  | none =>
    match w.wait1 with
    | .done => .ok .graceful
    | .raised e => .error e
    | .timedOut =>
      match w.killExc with
      | some e => .error e
      | none =>
        match w.wait2Exc with
        | some e => .error e
        | none => .ok .forced

/-- Embeds kill_process (utils/process.py 284-309): a no-op when the process
already exited; otherwise runs the termination body, swallows
ProcessLookupError, and logs any other exception. -/
def kill_process (w : KillWorld) : Except Exc KillLog :=
  if w.alive then
    match killBody w with
    | .ok l => .ok l
    | .error .processLookup => .ok .processGone
    | .error e => .ok (.loggedError (excMsg e))
  else
    .ok .notRunning

/-- Outcome of one proc.terminate() call on a tracked child. -/
inductive TermOutcome where
  | ok
  | noSuchProcess
  | raised (msg : String)
  deriving DecidableEq, Repr

/-- The environment of one stop() call: per-child terminate outcomes, the
psutil.wait_procs outcome, and the kill_process environment. -/
structure StopWorld where
  childTerm : Nat → TermOutcome
  waitChildrenExc : Option String
  kill : KillWorld

/-- The ServerStopError message (manager.py line 227). -/
def stopFailMsg (m : String) : String :=
  "Failed to stop server: " ++ m

/-- The child-terminate loop of stop() (manager.py 211-215): NoSuchProcess is
swallowed per child, any other exception escapes the loop. -/
def childLoop (f : Nat → TermOutcome) : List Nat → Except Exc Unit
  | [] => .ok ()
  | c :: rest =>
    match f c with
    | .ok => childLoop f rest
    | .noSuchProcess => childLoop f rest
    | .raised m => .error (.other m)

/-- The psutil.wait_procs call on the tracked children (manager.py 218-221);
with no children it returns at once and cannot raise. -/
def waitChildren (children : List Nat) (exc : Option String) : Except Exc Unit :=
  match children with
  | [] => .ok ()
  | _ :: _ =>
    match exc with
    | none => .ok ()
    | some m => .error (.other m)

/-- The try-block of stop() (manager.py 209-224): terminate children, wait
for them, then kill the main process. -/
def stopBody (s : ManagerState) (w : StopWorld) : Except Exc Unit := do
  childLoop w.childTerm s.children
  waitChildren s.children w.waitChildrenExc
  let _ ← kill_process w.kill
  pure ()

/-- Embeds stop() (manager.py 199-230): a no-op without a tracked process;
otherwise cancel the monitor tasks, run the termination body, wrap any
exception as ServerStopError, and clear the process handle and the child set
in the finally block. -/
def stop (s : ManagerState) (w : StopWorld) : Except SErr Unit × ManagerState :=
  match s.process with
  | none => (.ok (), s)
  | some _ =>
    let cleared : ManagerState :=
      { s with process := none, children := [], healthTask := false, statusTask := false }
    match stopBody s w with
    | .ok _ => (.ok (), cleared)
    | .error e => (.error (.stopErr (stopFailMsg (excMsg e))), cleared)

/-- The ServerStartError message for an occupied port (manager.py line 160). -/
def portInUseMsg (port : Nat) : String :=
  "Port " ++ toString port ++ " is already in use"

/-- The ServerStartError wrapper of start() (manager.py line 197). -/
def failWrapMsg (m : String) : String :=
  "Failed to start server: " ++ m

/-- Which collaborators a start() call invoked: whether the spawning
collaborator ran and whether the cleanup stop() ran. -/
structure StartFlags where
  spawned : Bool
  stopCalled : Bool
  deriving DecidableEq, Repr

/-- The environment of one start() call: whether the currently tracked
process (if any) is still alive, the probe outcome, the spawn outcome (a pid,
or the ProcessError message), the startup poll trace, and the environment of
the cleanup stop(). -/
structure StartWorld where
  trackedAlive : Bool
  probe : HttpResult
  spawn : Except String Nat
  startupTrace : List PollObs
  stopW : StopWorld

/-- Embeds start() (manager.py 148-197): no-op when a tracked process is
alive; fail before spawning when the port probe sees a response; otherwise
spawn, wait for startup, and on any failure inside the try-block run the
cleanup stop() and wrap the failure as ServerStartError (an error raised by
the cleanup stop() itself propagates instead, as in the source). -/
def start (s : ManagerState) (w : StartWorld) :
    Except SErr Unit × ManagerState × StartFlags :=
  if s.process.isSome && w.trackedAlive then
    (.ok (), s, ⟨false, false⟩)
  else if is_port_available w.probe = false then
    (.error (.startErr (portInUseMsg s.config.port)), s, ⟨false, false⟩)
  else
    match w.spawn with
    | .error m =>
      let r := stop s w.stopW
      match r.1 with
      | .error e => (.error e, r.2, ⟨false, true⟩)
      | .ok _ => (.error (.startErr (failWrapMsg m)), r.2, ⟨false, true⟩)
    | .ok pid =>
      let s1 : ManagerState := { s with process := some pid }
      match wait_for_startup w.startupTrace none with
      | .ok _ => (.ok (), { s1 with healthTask := true, statusTask := true }, ⟨true, false⟩)
      | .error msg =>
        let r := stop s1 w.stopW
        match r.1 with
        | .error e => (.error e, r.2, ⟨true, true⟩)
        | .ok _ => (.error (.startErr (failWrapMsg msg)), r.2, ⟨true, true⟩)

/-- Embeds restart() (manager.py 232-235): stop then start; if stop raises,
start is not reached. -/
def restart (s : ManagerState) (ws : StopWorld) (w : StartWorld) :
    Except SErr Unit × ManagerState :=
  let r := stop s ws
  match r.1 with
  | .error e => (.error e, r.2)
  | .ok _ =>
    let r2 := start r.2 w
    (r2.1, r2.2.1)

/-- One public lifecycle call together with its environment. -/
inductive Op where
  | opStart (w : StartWorld)
  | opStop (w : StopWorld)
  | opRestart (ws : StopWorld) (w : StartWorld)

/-- The state transition of one lifecycle call. -/
def execOp (s : ManagerState) : Op → ManagerState
  | .opStart w => (start s w).2.1
  | .opStop w => (stop s w).2
  | .opRestart ws w => (restart s ws w).2

/-- The state after a sequence of lifecycle calls. -/
def execOps (s : ManagerState) : List Op → ManagerState
  | [] => s
  | op :: rest => execOps (execOp s op) rest

/-- How many live process handles a manager state tracks; self.process is a
single Optional field (manager.py line 109). -/
def trackedCount (s : ManagerState) : Nat :=
  match s.process with
  | none => 0
  | some _ => 1

/-- The psutil failures that get_status catches (manager.py line 268). -/
inductive PsFail where
  | noSuchProcess (msg : String)
  | accessDenied (msg : String)
  deriving DecidableEq, Repr

/-- The str() rendering of a psutil failure. -/
def psMsg : PsFail → String
  | .noSuchProcess m => m
  | .accessDenied m => m

/-- The OS process metrics sampled inside the try-block of get_status:
creation timestamp, the current time, resident set size in bytes, and the
CPU percentage. -/
structure PsInfo where
  createTime : Int
  now : Int
  rss : Rat
  cpu : Rat
  deriving DecidableEq, Repr

/-- The ServerStatus dataclass (manager.py 65-75), with datetimes and
timedeltas embedded as integer timestamps and second counts. -/
structure ServerStatus where
  running : Bool
  pid : Option Nat
  startTime : Option Int
  uptime : Option Int
  memoryUsage : Option Rat
  cpuPercent : Option Rat
  port : Nat
  error : Option String := none
  deriving DecidableEq, Repr

/-- The snapshot returned when no live process is tracked
(manager.py 244-252). -/
def notRunningStatus (port : Nat) : ServerStatus :=
  { running := false, pid := none, startTime := none, uptime := none,
    memoryUsage := none, cpuPercent := none, port := port }

/-- The running snapshot built from sampled metrics (manager.py 258-266):
uptime is derived from the creation time, memory is the resident set size
divided twice by 1024. -/
def runningStatusOf (pid : Nat) (port : Nat) (i : PsInfo) : ServerStatus :=
  { running := true, pid := some pid, startTime := some i.createTime,
    uptime := some (i.now - i.createTime),
    memoryUsage := some (i.rss / 1024 / 1024), cpuPercent := some i.cpu,
    port := port }

/-- The try-block of get_status (manager.py 254-266): the psutil sampling may
raise, and its metrics fill a running snapshot. -/
def statusBody (pid : Nat) (port : Nat) (ps : Except PsFail PsInfo) :
    Except PsFail ServerStatus := do
  let i ← ps
  pure (runningStatusOf pid port i)

/-- The self-healed snapshot of get_status (manager.py 269-278): the pid is
still reported, running is false, and the OS error string is recorded. -/
def healedStatus (pid : Nat) (port : Nat) (msg : String) : ServerStatus :=
  { running := false, pid := some pid, startTime := none, uptime := none,
    memoryUsage := none, cpuPercent := none, port := port, error := some msg }

/-- The environment of one get_status call: the poll() result of the tracked
process and the psutil sampling outcome. -/
structure StatusWorld where
  poll : Option Int
  ps : Except PsFail PsInfo

/-- Embeds get_status (manager.py 237-278): a not-running snapshot when no
live process is tracked; otherwise sample the metrics, catching NoSuchProcess
and AccessDenied into a self-healed running=false snapshot that records the
OS error string. -/
def get_status (s : ManagerState) (w : StatusWorld) : Except PsFail ServerStatus :=
  match s.process with
  | none => .ok (notRunningStatus s.config.port)
  | some pid =>
    match w.poll with
    | some _ => .ok (notRunningStatus s.config.port)
    | none =>
      match statusBody pid s.config.port w.ps with
      | .ok st => .ok st
      | .error f => .ok (healedStatus pid s.config.port (psMsg f))

/-- The dictionary ServerStatus.to_dict produces, field for field. -/
structure StatusDict where
  running : Bool
  pid : Option Nat
  startTime : Option String
  uptime : Option String
  memoryUsage : Option Rat
  cpuPercent : Option Rat
  port : Nat
  error : Option String
  deriving DecidableEq, Repr

/-- Python round to one decimal place. -/
def round1 (x : Rat) : Rat :=
  ((round (10 * x) : Int) : Rat) / 10

/-- Embeds ServerStatus.to_dict (manager.py 77-88).  Python truthiness is
made explicit: None and a zero float or timedelta are falsy, so those fields
test the value, not only its presence; a datetime is always truthy. -/
def to_dict (st : ServerStatus) : StatusDict :=
  { running := st.running,
    pid := st.pid,
    startTime := st.startTime.map toString,
    uptime :=
      match st.uptime with
      | none => none
      | some u => if u = 0 then none else some (toString u),
    memoryUsage :=
      match st.memoryUsage with
      | none => none
      | some m => if m = 0 then none else some (round1 m),
    cpuPercent :=
      match st.cpuPercent with
      | none => none
      | some c => if c = 0 then none else some (round1 c),
    port := st.port,
    error := st.error }

/-! Concrete sample data used by the witness theorems. -/

/-- A sample configuration, matching the source defaults. -/
def sampleConfig : ServerConfig :=
  { name := "demo", host := "127.0.0.1", port := 8000, logLevel := "info", reload := false }

/-- A freshly constructed idle manager. -/
def idleState : ManagerState :=
  { config := sampleConfig, process := none, children := [], healthTask := false,
    statusTask := false }

/-- A manager tracking a live process with its monitors running. -/
def runningState : ManagerState :=
  { config := sampleConfig, process := some 42, children := [], healthTask := true,
    statusTask := true }

/-- A benign kill_process environment: alive, graceful termination. -/
def sampleKill : KillWorld :=
  { alive := true, terminateExc := none, wait1 := .done, killExc := none, wait2Exc := none }

/-- A benign stop() environment. -/
def sampleStopW : StopWorld :=
  { childTerm := fun _ => .ok, waitChildrenExc := none, kill := sampleKill }

/-- The state stop() leaves behind once it has run its sequence on a tracked
process: monitors cancelled, handle and child set cleared. -/
def clearedOf (s : ManagerState) : ManagerState :=
  { s with process := none, children := [], healthTask := false, statusTask := false }

/-- A poll observation of a child that exited right away. -/
def exitedObs : PollObs :=
  { elapsed := 1, procExited := some ("gone", "boom"), health := .connError ("x") }

/-- A manager configured to serve on all interfaces. -/
def zeroHostState : ManagerState :=
  { config := { name := "demo", host := "0.0.0.0", port := 8000, logLevel := "info", reload := false },
    process := none, children := [], healthTask := false, statusTask := false }

/-- A kill_process environment in which the process ignores terminate and the
forced kill itself raises. -/
def stubbornKill : KillWorld :=
  { alive := true, terminateExc := none, wait1 := .timedOut,
    killExc := some (.other ("EPERM")), wait2Exc := none }

/-- A stop() environment with healthy children and a stubborn main process. -/
def stubbornStopW : StopWorld :=
  { childTerm := fun _ => .ok, waitChildrenExc := none, kill := stubbornKill }

/-! Helper lemmas shared between claim proofs. -/

/-- kill_process returns a log in every environment: every branch of its body
is caught by one of its except clauses. -/
theorem kill_process_isOk (w : KillWorld) : ∃ l, kill_process w = .ok l := by
  unfold kill_process
  cases ha : w.alive
  · exact ⟨.notRunning, by simp⟩
  · cases hb : killBody w with
    | ok l => exact ⟨l, by simp [hb]⟩
    | error e =>
      cases e with
      | processLookup => exact ⟨.processGone, by simp [hb]⟩
      | other m => exact ⟨.loggedError m, by simp [hb, excMsg]⟩

/-- With no tracked children the termination body of stop() cannot raise. -/
theorem stopBody_ok_of_noChildren (s : ManagerState) (w : StopWorld)
    (h : s.children = []) : stopBody s w = .ok () := by
  obtain ⟨l, hl⟩ := kill_process_isOk w.kill
  simp only [stopBody, h, childLoop, waitChildren, hl]
  rfl

/-- A failing health observation steps the startup loop into its tail with
the corresponding last_error recorded. -/
theorem wait_for_startup_failStep (o : PollObs) (rest : List PollObs)
    (last : Option String) (h1 : o.elapsed < (STARTUP_TIMEOUT : Rat))
    (h2 : o.procExited = none) (h3 : healthOk o.health = false) :
    wait_for_startup (o :: rest) last =
      wait_for_startup rest (some (obsFailMsg o.health)) := by
  cases hh : o.health with
  | response st =>
    have hne : ¬ st = 200 := by
      intro h
      rw [hh, healthOk] at h3
      simp [h] at h3
    simp [wait_for_startup, h1, h2, hh, hne, obsFailMsg]
  | connError m => simp [wait_for_startup, h1, h2, hh, obsFailMsg]

/-- A trace of failing observations drives the startup loop to the timeout
error carrying the last observed failure. -/
theorem wait_for_startup_allFail (tr : List PollObs) (o : PollObs)
    (last : Option String)
    (hall : ∀ p ∈ tr ++ [o], p.elapsed < (STARTUP_TIMEOUT : Rat) ∧
      p.procExited = none ∧ healthOk p.health = false) :
    wait_for_startup (tr ++ [o]) last =
      .error (timeoutMsg (some (obsFailMsg o.health))) := by
  induction tr generalizing last with
  | nil =>
    obtain ⟨h1, h2, h3⟩ := hall o (by simp)
    rw [List.nil_append, wait_for_startup_failStep o [] last h1 h2 h3]
    simp [wait_for_startup]
  | cons p rest ih =>
    obtain ⟨h1, h2, h3⟩ := hall p (by simp)
    rw [List.cons_append, wait_for_startup_failStep p (rest ++ [o]) last h1 h2 h3]
    exact ih (some (obsFailMsg p.health)) (fun q hq => hall q (by simp at hq ⊢; tauto))

/-! Claims. -/

/-- Claim C1: when the manager is not already tracking a live process and the
port probe observes any successful HTTP response at the configured port,
start() raises ServerStartError for that port, leaves the state untouched,
and never invokes the process-spawning collaborator. -/
theorem start_portOccupied (s : ManagerState) (w : StartWorld) (st : Nat)
    (hidle : s.process = none ∨ w.trackedAlive = false)
    (hprobe : w.probe = .response st) :
    start s w = (.error (.startErr (portInUseMsg s.config.port)), s, ⟨false, false⟩) := by
  have hguard : (s.process.isSome && w.trackedAlive) = false := by
    rcases hidle with h | h
    · simp [h]
    · simp [h]
  simp [start, hguard, hprobe, is_port_available]

/-- Witness for C1: an idle manager, a probe that sees a 503 response. -/
theorem start_portOccupied_witness :
    start idleState
        { trackedAlive := false, probe := .response 503, spawn := .ok 7,
          startupTrace := [], stopW := sampleStopW } =
      (.error (.startErr (portInUseMsg 8000)), idleState, ⟨false, false⟩) :=
  start_portOccupied idleState
    { trackedAlive := false, probe := .response 503, spawn := .ok 7,
      startupTrace := [], stopW := sampleStopW } 503 (Or.inl rfl) rfl

/-- Claim C6: stop() on a manager with no tracked process returns at once
without error and without mutating any state. -/
theorem stop_noop (s : ManagerState) (w : StopWorld) (h : s.process = none) :
    stop s w = (.ok (), s) := by
  simp [stop, h]

/-- Witness for C6 at the idle manager. -/
theorem stop_noop_witness : stop idleState sampleStopW = (.ok (), idleState) :=
  stop_noop idleState sampleStopW rfl

/-- Claim C10: to_dict tests truthiness, so an exact zero memory usage, CPU
percentage or uptime is reported as null, indistinguishable from the absent
measurement of a not-running server. -/
theorem to_dict_zeroIsNull (st : ServerStatus) :
    to_dict { st with memoryUsage := some 0 } = to_dict { st with memoryUsage := none }
  ∧ to_dict { st with cpuPercent := some 0 } = to_dict { st with cpuPercent := none }
  ∧ to_dict { st with uptime := some 0 } = to_dict { st with uptime := none }
  ∧ (to_dict { st with memoryUsage := some 0 }).memoryUsage = none
  ∧ (to_dict { st with cpuPercent := some 0 }).cpuPercent = none
  ∧ (to_dict { st with uptime := some 0 }).uptime = none := by
  refine ⟨?_, ?_, ?_, ?_, ?_, ?_⟩ <;> simp [to_dict]

/-- Claim C2: each iteration of the startup poll loop, while the 30-second
deadline has not passed, first checks for process exit (failing with the
message that interpolates the drained stdout and stderr), then succeeds on
the first HTTP 200, and otherwise records the status failure or connection
error as last_error and recurses; once the deadline passes, or after a trace
of failing iterations, it fails with the message that interpolates the last
observed error. -/
theorem wait_for_startup_spec :
    (∀ (o : PollObs) (rest : List PollObs) (last : Option String) (out err : String),
      o.elapsed < (STARTUP_TIMEOUT : Rat) → o.procExited = some (out, err) →
      wait_for_startup (o :: rest) last = .error (diedMsg out err))
  ∧ (∀ (o : PollObs) (rest : List PollObs) (last : Option String),
      o.elapsed < (STARTUP_TIMEOUT : Rat) → o.procExited = none →
      o.health = .response 200 →
      wait_for_startup (o :: rest) last = .ok ())
  ∧ (∀ (o : PollObs) (rest : List PollObs) (last : Option String) (st : Nat),
      o.elapsed < (STARTUP_TIMEOUT : Rat) → o.procExited = none →
      o.health = .response st → st ≠ 200 →
      wait_for_startup (o :: rest) last =
        wait_for_startup rest (some (statusFailMsg st)))
  ∧ (∀ (o : PollObs) (rest : List PollObs) (last : Option String) (m : String),
      o.elapsed < (STARTUP_TIMEOUT : Rat) → o.procExited = none →
      o.health = .connError m →
      wait_for_startup (o :: rest) last = wait_for_startup rest (some m))
  ∧ (∀ (o : PollObs) (rest : List PollObs) (last : Option String),
      ¬ o.elapsed < (STARTUP_TIMEOUT : Rat) →
      wait_for_startup (o :: rest) last = .error (timeoutMsg last))
  ∧ (∀ (tr : List PollObs) (o : PollObs) (last : Option String),
      (∀ p ∈ tr ++ [o], p.elapsed < (STARTUP_TIMEOUT : Rat) ∧
        p.procExited = none ∧ healthOk p.health = false) →
      wait_for_startup (tr ++ [o]) last =
        .error (timeoutMsg (some (obsFailMsg o.health)))) := by
  refine ⟨?_, ?_, ?_, ?_, ?_, wait_for_startup_allFail⟩
  · intro o rest last out err h1 h2
    simp [wait_for_startup, h1, h2]
  · intro o rest last h1 h2 h3
    simp [wait_for_startup, h1, h2, h3]
  · intro o rest last st h1 h2 h3 h4
    simp [wait_for_startup, h1, h2, h3, h4]
  · intro o rest last m h1 h2 h3
    simp [wait_for_startup, h1, h2, h3]
  · intro o rest last h1
    simp [wait_for_startup, h1]

/-- Witness for C2: a process that has exited in the first iteration. -/
theorem wait_for_startup_spec_witness :
    wait_for_startup [exitedObs] none = .error (diedMsg ("gone") ("boom")) :=
  wait_for_startup_spec.1 exitedObs [] none "gone" "boom"
    (by norm_num [exitedObs, STARTUP_TIMEOUT]) rfl

/-- Claim C3: once stop() runs its termination sequence, any exception raised
by it is wrapped as ServerStopError, and the process handle and the child set
are cleared whether or not an exception occurred. -/
theorem stop_clearsState (s : ManagerState) (w : StopWorld)
    (htracked : s.process.isSome = true) :
    (∀ e, stopBody s w = .error e →
      (stop s w).1 = .error (.stopErr (stopFailMsg (excMsg e))))
  ∧ (stop s w).2.process = none ∧ (stop s w).2.children = [] := by
  obtain ⟨pid, hp⟩ := Option.isSome_iff_exists.mp htracked
  refine ⟨fun e he => ?_, ?_, ?_⟩
  · simp [stop, hp, he]
  · cases hb : stopBody s w <;> simp [stop, hp, hb]
  · cases hb : stopBody s w <;> simp [stop, hp, hb]

/-- Witness for C3: a tracked process whose child terminate step raises. -/
theorem stop_clearsState_witness :
    (stop { runningState with children := [9] }
        { childTerm := fun _ => .raised ("EPERM"), waitChildrenExc := none,
          kill := sampleKill }).2.process = none :=
  (stop_clearsState { runningState with children := [9] }
    { childTerm := fun _ => .raised ("EPERM"), waitChildrenExc := none,
      kill := sampleKill } rfl).2.1

/-- Claim C4: when start() has spawned the child and the startup wait then
fails, start() runs the cleanup stop() and re-raises the failure as
ServerStartError, leaving no tracked process handle behind.  The child set is
empty in every reachable state, which keeps the cleanup stop() itself from
raising. -/
theorem start_cleanupOnFailure (s : ManagerState) (w : StartWorld)
    (pid : Nat) (msg : String)
    (hidle : s.process = none ∨ w.trackedAlive = false)
    (hprobe : ∃ m, w.probe = .connError m)
    (hkids : s.children = [])
    (hspawn : w.spawn = .ok pid)
    (hwait : wait_for_startup w.startupTrace none = .error msg) :
    start s w = (.error (.startErr (failWrapMsg msg)), clearedOf s, ⟨true, true⟩) := by
  have hguard : (s.process.isSome && w.trackedAlive) = false := by
    rcases hidle with h | h
    · simp [h]
    · simp [h]
  obtain ⟨m, hm⟩ := hprobe
  have hbody : stopBody { s with process := some pid } w.stopW = .ok () :=
    stopBody_ok_of_noChildren _ _ (by simpa using hkids)
  simp [start, hguard, hm, is_port_available, hspawn, hwait, stop, hbody, clearedOf]

/-- Witness for C4: an idle manager whose spawned child never turns healthy
inside the trace, so the wait times out. -/
theorem start_cleanupOnFailure_witness :
    start idleState
        { trackedAlive := false, probe := .connError ("refused"), spawn := .ok 42,
          startupTrace := [], stopW := sampleStopW } =
      (.error (.startErr (failWrapMsg (timeoutMsg none))), idleState, ⟨true, true⟩) :=
  start_cleanupOnFailure idleState
    { trackedAlive := false, probe := .connError ("refused"), spawn := .ok 42,
      startupTrace := [], stopW := sampleStopW } 42 (timeoutMsg none)
    (Or.inl rfl) ⟨"refused", rfl⟩ rfl rfl rfl

/-- Claim C5: start() on a manager whose tracked process is alive is a no-op
that spawns nothing and raises nothing; stop() always leaves no tracked
handle behind; and no sequence of lifecycle calls leaves a manager tracking
more than one process handle. -/
theorem singleProcessPerManager :
    (∀ (s : ManagerState) (w : StartWorld), s.process.isSome = true →
      w.trackedAlive = true → start s w = (.ok (), s, ⟨false, false⟩))
  ∧ (∀ (s : ManagerState) (w : StopWorld), (stop s w).2.process = none)
  ∧ (∀ (s : ManagerState) (ops : List Op), trackedCount (execOps s ops) ≤ 1) := by
  refine ⟨?_, ?_, ?_⟩
  · intro s w h1 h2
    simp [start, h1, h2]
  · intro s w
    cases hp : s.process with
    | none => simp [stop, hp]
    | some pid => cases hb : stopBody s w <;> simp [stop, hp, hb]
  · intro s ops
    cases h : (execOps s ops).process <;> simp [trackedCount, h]

/-- Witness for C5: starting the already-running manager changes nothing. -/
theorem singleProcessPerManager_witness :
    start runningState
        { trackedAlive := true, probe := .connError ("refused"), spawn := .ok 7,
          startupTrace := [], stopW := sampleStopW } =
      (.ok (), runningState, ⟨false, false⟩) :=
  singleProcessPerManager.1 runningState
    { trackedAlive := true, probe := .connError ("refused"), spawn := .ok 7,
      startupTrace := [], stopW := sampleStopW } rfl rfl

/-- Claim C7: get_status never raises: with no tracked process or an exited
one it returns the not-running snapshot, and when the pid lookup fails with
NoSuchProcess or AccessDenied it self-heals into a running=false snapshot
that records the OS error string. -/
theorem get_status_neverRaises (s : ManagerState) (w : StatusWorld) :
    (∃ st, get_status s w = .ok st)
  ∧ (s.process = none → get_status s w = .ok (notRunningStatus s.config.port))
  ∧ (∀ pid c, s.process = some pid → w.poll = some c →
      get_status s w = .ok (notRunningStatus s.config.port))
  ∧ (∀ pid f, s.process = some pid → w.poll = none → w.ps = .error f →
      get_status s w = .ok (healedStatus pid s.config.port (psMsg f))) := by
  refine ⟨?_, ?_, ?_, ?_⟩
  · cases hp : s.process with
    | none => exact ⟨notRunningStatus s.config.port, by simp [get_status, hp]⟩
    | some pid =>
      cases hq : w.poll with
      | some c => exact ⟨notRunningStatus s.config.port, by simp [get_status, hp, hq]⟩
      | none =>
        cases hps : w.ps with
        | ok i =>
          refine ⟨runningStatusOf pid s.config.port i, ?_⟩
          simp only [get_status, hp, hq, statusBody, hps]
          rfl
        | error f =>
          refine ⟨healedStatus pid s.config.port (psMsg f), ?_⟩
          simp only [get_status, hp, hq, statusBody, hps]
          rfl
  · intro hp
    simp [get_status, hp]
  · intro pid c hp hq
    simp [get_status, hp, hq]
  · intro pid f hp hq hps
    simp only [get_status, hp, hq, statusBody, hps]
    rfl

/-- Witness for C7: the tracked pid vanished from the process table. -/
theorem get_status_neverRaises_witness :
    get_status runningState { poll := none, ps := .error (.noSuchProcess ("pid 42")) } =
      .ok (healedStatus 42 8000 (psMsg (.noSuchProcess ("pid 42")))) :=
  (get_status_neverRaises runningState
    { poll := none, ps := .error (.noSuchProcess ("pid 42")) }).2.2.2
    42 (.noSuchProcess ("pid 42")) rfl rfl rfl

/-- Counterexample to claim C8 as stated: the probe does not request the
configured host; for a manager configured with host 0.0.0.0 it requests
localhost instead. -/
theorem probe_ignoresHost :
    probeRequest zeroHostState ≠ specProbeUrl "0.0.0.0" 8000 := by
  decide

/-- Claim C8 as amended: is_port_available requests localhost at the given
port (not the configured host), returns false on any successful HTTP
response regardless of status code, returns true on any connection failure
or timeout, and has no side effect on supervisor state. -/
theorem is_port_available_spec (s : ManagerState) (r : HttpResult) (port : Nat) :
    (∀ st, r = .response st → (is_port_availableM s r).1 = false)
  ∧ (∀ m, r = .connError m → (is_port_availableM s r).1 = true)
  ∧ (is_port_availableM s r).2 = s
  ∧ probeUrl port = specProbeUrl "localhost" port := by
  refine ⟨?_, ?_, rfl, ?_⟩
  · intro st h
    simp [is_port_availableM, is_port_available, h]
  · intro m h
    simp [is_port_availableM, is_port_available, h]
  · rfl

/-- Witness for C8 (amended): a 404 response still means the port is taken. -/
theorem is_port_available_spec_witness :
    (is_port_availableM idleState (.response 404)).1 = false :=
  (is_port_available_spec idleState (.response 404) 8000).1 404 rfl

/-- Claim C9: kill_process swallows every exception of its termination
sequence, so once the child-process steps of stop() have gone through, the
main-process termination step cannot produce a ServerStopError, whatever the
OS process does. -/
theorem kill_process_neverRaises (kw : KillWorld) (s : ManagerState) (w : StopWorld)
    (hchild : childLoop w.childTerm s.children = .ok ())
    (hwait : waitChildren s.children w.waitChildrenExc = .ok ()) :
    (∃ l, kill_process kw = .ok l) ∧ (stop s w).1 = .ok () := by
  refine ⟨kill_process_isOk kw, ?_⟩
  have hbody : stopBody s w = .ok () := by
    obtain ⟨l, hl⟩ := kill_process_isOk w.kill
    simp only [stopBody, hchild, hwait, hl]
    rfl
  cases hp : s.process <;> simp [stop, hp, hbody]

/-- Witness for C9: even a forced kill that itself raises cannot make stop()
fail once the child steps are through. -/
theorem kill_process_neverRaises_witness :
    (stop runningState stubbornStopW).1 = .ok () :=
  (kill_process_neverRaises stubbornKill runningState stubbornStopW rfl rfl).2

end McpSuper
